import Mathlib

/-!
Verification development for the code-analyzer server (`server/index.js`).

The heuristic scoring core of the server is embedded shallowly:

* `detectModernCode` mirrors the modern/legacy classifier (lines 31-56);
* `calculateDetailedMetrics` mirrors the metrics scorer (lines 60-160),
  with `preClampScore` naming the score before the final clamp;
* JavaScript `String.prototype.includes` is modeled by `strIncludes`, and
  `String.prototype.toLowerCase` by `toLowerStr` (character-wise ASCII
  lowercasing; the keyword lists are ASCII);
* JavaScript numbers stay integral throughout the scorer (all adjustments
  are integer-valued), so scores are modeled as `Int` and `Math.round` is
  the identity; the `timestamp` field (impure) is omitted from the record.
-/

/-- Tests whether `needle` is a leading segment of `hay` (character lists). -/
def leadsChars : List Char → List Char → Bool
  | [], _ => true
  | _ :: _, [] => false
  | a :: as, b :: bs => a == b && leadsChars as bs

/-- Tests whether `needle` occurs contiguously inside `hay` (character lists). -/
def hasSubChars (needle : List Char) : List Char → Bool
  | [] => leadsChars needle []
  | c :: t => leadsChars needle (c :: t) || hasSubChars needle t

/-- Model of JavaScript `hay.includes(needle)` for strings. -/
def strIncludes (hay needle : String) : Bool :=
  hasSubChars needle.toList hay.toList

/-- The modern-code indicator substrings (`modernIndicators`, lines 34-39). -/
def modernIndicators : List String :=
  ["const ", "let ", "=>", "async ", "await ", "import ", "export ",
   "class ", "extends ", "constructor", "get ", "set ",
   "Promise", "fetch", "async/await", "template literals",
   "destructuring", "spread operator", "arrow functions"]

/-- The legacy-code indicator substrings (`legacyIndicators`, lines 41-45). -/
def legacyIndicators : List String :=
  ["var ", "function(", "callback", "jQuery", "$(",
   "document.getElementById", "innerHTML", "eval(",
   "with(", "arguments.callee"]

/-- Number of modern indicators occurring in `code` (`modernCount`, lines 47-49). -/
def modernMatchCount (code : String) : Nat :=
  (modernIndicators.filter (fun i => strIncludes code i)).length

/-- Number of legacy indicators occurring in `code` (`legacyCount`, lines 51-53). -/
def legacyMatchCount (code : String) : Nat :=
  (legacyIndicators.filter (fun i => strIncludes code i)).length

/-- The modern/legacy input-code classifier (`detectModernCode`, lines 31-56).
The falsy check `if (!code) return false` of JavaScript is the empty-string guard
(callers always pass a string, empty when the field was absent). -/
def detectModernCode (code : String) : Bool :=
  if code = ("") then false
  else decide (legacyMatchCount code < modernMatchCount code ∧ 3 ≤ modernMatchCount code)

/-- Pair of negative/positive keyword lists for one category. -/
structure KeywordSet where
  negative : List String
  positive : List String
deriving DecidableEq

/-- Keyword table entry `modernization` (lines 67-70). -/
def modernizationKeywords : KeywordSet :=
  ⟨["outdated", "legacy", "deprecated", "old", "ancient", "obsolete", "var", "function()", "callback", "jquery"],
   ["modern", "es6", "es2015+", "async/await", "arrow functions", "const/let", "modules", "typescript"]⟩

/-- Keyword table entry `security` (lines 71-74). -/
def securityKeywords : KeywordSet :=
  ⟨["vulnerable", "unsafe", "risk", "danger", "injection", "xss", "csrf", "sql injection", "no validation"],
   ["secure", "safe", "validated", "sanitized", "encrypted", "authentication", "authorization", "https"]⟩

/-- Keyword table entry `performance` (lines 75-78). -/
def performanceKeywords : KeywordSet :=
  ⟨["slow", "inefficient", "bottleneck", "memory leak", "n+1 query", "blocking", "synchronous"],
   ["fast", "efficient", "optimized", "cached", "async", "parallel", "streaming", "lazy loading"]⟩

/-- Keyword table entry `architecture` (lines 79-82). -/
def architectureKeywords : KeywordSet :=
  ⟨["tightly coupled", "monolithic", "spaghetti", "god object", "circular dependency"],
   ["modular", "loosely coupled", "separation of concerns", "design patterns", "clean architecture"]⟩

/-- Keyword table entry `complexity` (lines 83-86). -/
def complexityKeywords : KeywordSet :=
  ⟨["complex", "complicated", "nested", "cyclomatic", "hard to read", "too many parameters"],
   ["simple", "clean", "readable", "single responsibility", "small functions", "clear naming"]⟩

/-- Keyword table entry `documentation` (lines 87-90). -/
def documentationKeywords : KeywordSet :=
  ⟨["no documentation", "missing comments", "unclear", "undocumented", "no examples"],
   ["well documented", "clear comments", "examples", "api docs", "readme", "tutorials"]⟩

/-- Keyword table entry `cicd` (lines 91-94). -/
def cicdKeywords : KeywordSet :=
  ⟨["manual deployment", "no tests", "no ci/cd", "no automation", "no monitoring"],
   ["automated", "ci/cd", "tests", "monitoring", "deployment pipeline", "quality gates"]⟩

/-- Keyword table entry `transformation` (lines 95-98). -/
def transformationKeywords : KeywordSet :=
  ⟨["refactor needed", "rewrite", "major changes", "poor structure", "bad practices"],
   ["well structured", "good practices", "clean code", "minimal changes", "already good"]⟩

/-- Keyword table entry `reporting` (lines 99-102). -/
def reportingKeywords : KeywordSet :=
  ⟨["no metrics", "no monitoring", "no reporting", "no analytics", "no insights"],
   ["comprehensive", "detailed metrics", "monitoring", "analytics", "insights", "dashboard"]⟩

/-- The keyword table `analysisKeywords` (lines 66-103), as an association
list in source key order. -/
def analysisKeywords : List (String × KeywordSet) :=
  [("modernization", modernizationKeywords), ("security", securityKeywords),
   ("performance", performanceKeywords), ("architecture", architectureKeywords),
   ("complexity", complexityKeywords), ("documentation", documentationKeywords),
   ("cicd", cicdKeywords), ("transformation", transformationKeywords),
   ("reporting", reportingKeywords)]

/-- The lookup `analysisKeywords[analysisType] || analysisKeywords.modernization`
(line 105) for ordinary key strings: an unknown category falls back to the
modernization table.  (A category name that is an inherited `Object.prototype`
member makes the JavaScript lookup yield a non-table value and the subsequent
`.filter` throw; that fallible path is modeled by `calculateDetailedMetricsJS`
below, while this total function treats such names like any unknown key.) -/
def keywordsFor (analysisType : String) : KeywordSet :=
  match analysisKeywords.find? (fun p => p.1 == analysisType) with
  | some p => p.2
  | none => modernizationKeywords

/-- Model of JavaScript `toLowerCase` (line 61): character-wise lowercasing
(`Char.toLower` lowercases exactly the ASCII letters, which covers every
keyword the scorer matches against). -/
def toLowerStr (s : String) : String :=
  String.mk (s.data.map Char.toLower)

/-- `negativeCount` (lines 108-110): negative keywords of the category list
occurring in the lowercased response, each counted at most once. -/
def negCount (analysisType response : String) : Nat :=
  ((keywordsFor analysisType).negative.filter (fun k => strIncludes (toLowerStr response) k)).length

/-- `positiveCount` (lines 112-114). -/
def posCount (analysisType response : String) : Nat :=
  ((keywordsFor analysisType).positive.filter (fun k => strIncludes (toLowerStr response) k)).length

/-- `hasCodeExamples` (line 128): response mentions an example or a code fence. -/
def hasExamplesMarker (response : String) : Bool :=
  strIncludes (toLowerStr response) ("example") || strIncludes (toLowerStr response) ("```")

/-- `hasSpecificRecommendations` (line 129). -/
def hasRecommendMarker (response : String) : Bool :=
  strIncludes (toLowerStr response) ("recommend") || strIncludes (toLowerStr response) ("suggest")

/-- `hasMetrics` (line 130). -/
def hasMetricsMarker (response : String) : Bool :=
  strIncludes (toLowerStr response) ("%") || strIncludes (toLowerStr response) ("improvement") ||
    strIncludes (toLowerStr response) ("better")

/-- The baseline score (line 63): 75 for modern input code, 50 otherwise. -/
def baselineScore (inputCode : String) : Int :=
  if detectModernCode inputCode then 75 else 50

/-- The score before the final clamp: baseline (line 63), keyword adjustments
(lines 117-125), and the three +5 bonuses (lines 132-134), applied in source
order. -/
def preClampScore (analysisType response inputCode : String) : Int :=
  let adjusted : Int :=
    if detectModernCode inputCode then
      baselineScore inputCode - (negCount analysisType response : Int) * 5
        + (posCount analysisType response : Int) * 10
    else
      baselineScore inputCode - (negCount analysisType response : Int) * 10
        + (posCount analysisType response : Int) * 8
  let withEx := if hasExamplesMarker response then adjusted + 5 else adjusted
  let withRec := if hasRecommendMarker response then withEx + 5 else withEx
  if hasMetricsMarker response then withRec + 5 else withRec

/-- The MetricsRecord assembled by the scorer (lines 145-157), minus the
impure `timestamp` field.  All numeric fields are integers, so the
`Math.round` calls are identities. -/
structure Metrics where
  overallScore : Int
  improvementPotential : Int
  codeQuality : Int
  modernizationLevel : Int
  issuesFound : Nat
  improvementsSuggested : Nat
  hasCodeExamples : Bool
  hasSpecificRecommendations : Bool
  hasMetrics : Bool
  analysisType : String
deriving DecidableEq

/-- The metrics scorer `calculateDetailedMetrics` (lines 60-160): clamp the
pre-clamp score to [0,100] (line 137) and derive the remaining fields
(lines 140-157). -/
def calculateDetailedMetrics (analysisType response inputCode : String) : Metrics :=
  let score := max 0 (min 100 (preClampScore analysisType response inputCode))
  { overallScore := score
    improvementPotential := max 0 (100 - score)
    codeQuality := score
    modernizationLevel := if analysisType = ("modernization") then score else min 100 (score + 20)
    issuesFound := negCount analysisType response
    improvementsSuggested := posCount analysisType response
    hasCodeExamples := hasExamplesMarker response
    hasSpecificRecommendations := hasRecommendMarker response
    hasMetrics := hasMetricsMarker response
    analysisType := analysisType }

/-- C1: for every category string, response text and input code, the
`overallScore` of the record returned by the metrics scorer lies in the
closed interval [0, 100]. -/
theorem overallScore_mem_Icc (analysisType response inputCode : String) :
    0 ≤ (calculateDetailedMetrics analysisType response inputCode).overallScore ∧
      (calculateDetailedMetrics analysisType response inputCode).overallScore ≤ 100 := by
  unfold calculateDetailedMetrics
  dsimp only
  omega

/-- C2: for every category string, response text and input code, the record
returned by the metrics scorer satisfies
`improvementPotential + overallScore = 100`. -/
theorem improvementPotential_add_overallScore (analysisType response inputCode : String) :
    (calculateDetailedMetrics analysisType response inputCode).improvementPotential +
      (calculateDetailedMetrics analysisType response inputCode).overallScore = 100 := by
  unfold calculateDetailedMetrics
  dsimp only
  omega

/-- Closed form of the pre-clamp score (helper shared by several proofs). -/
theorem preClampScore_eq_aux (analysisType response inputCode : String) :
    preClampScore analysisType response inputCode =
      (if detectModernCode inputCode then
        75 - 5 * (negCount analysisType response : Int) + 10 * (posCount analysisType response : Int)
      else
        50 - 10 * (negCount analysisType response : Int) + 8 * (posCount analysisType response : Int))
      + (if hasExamplesMarker response then 5 else 0)
      + (if hasRecommendMarker response then 5 else 0)
      + (if hasMetricsMarker response then 5 else 0) := by
  unfold preClampScore baselineScore
  cases h : detectModernCode inputCode <;>
    cases hEx : hasExamplesMarker response <;>
      cases hRec : hasRecommendMarker response <;>
        cases hMet : hasMetricsMarker response <;>
          simp <;> ring

/-- C5: for every category, response and input code, the score before the
clamp equals the baseline (75 when the input code is classified modern,
50 otherwise) minus 5 times the negative count plus 10 times the positive
count in the modern case, minus 10 times the negative count plus 8 times the
positive count otherwise, plus an independent +5 for each of the three
response markers. -/
theorem preClampScore_closed_form (analysisType response inputCode : String) :
    preClampScore analysisType response inputCode =
      (if detectModernCode inputCode then
        75 - 5 * (negCount analysisType response : Int) + 10 * (posCount analysisType response : Int)
      else
        50 - 10 * (negCount analysisType response : Int) + 8 * (posCount analysisType response : Int))
      + (if hasExamplesMarker response then 5 else 0)
      + (if hasRecommendMarker response then 5 else 0)
      + (if hasMetricsMarker response then 5 else 0) :=
  preClampScore_eq_aux analysisType response inputCode

/-- C3: for a fixed category and response text, an input code classified
modern never yields a lower `overallScore` than an input code classified
legacy. -/
theorem modern_overallScore_ge_legacy (analysisType response codeModern codeLegacy : String)
    (h1 : detectModernCode codeModern = true) (h2 : detectModernCode codeLegacy = false) :
    (calculateDetailedMetrics analysisType response codeLegacy).overallScore ≤
      (calculateDetailedMetrics analysisType response codeModern).overallScore := by
  unfold calculateDetailedMetrics
  dsimp only
  rw [preClampScore_eq_aux, preClampScore_eq_aux, h1, h2]
  cases hEx : hasExamplesMarker response <;>
    cases hRec : hasRecommendMarker response <;>
      cases hMet : hasMetricsMarker response <;>
        simp <;> omega

/-- C3 witness: a concrete modern input code and a concrete legacy one. -/
theorem modern_overallScore_ge_legacy_witness :
    detectModernCode ("const a = 1; let b = 2; const f = (x) => x;") = true ∧
      detectModernCode ("var x = 1;") = false ∧
      (calculateDetailedMetrics ("security") ("recommend") ("var x = 1;")).overallScore ≤
        (calculateDetailedMetrics ("security") ("recommend") ("const a = 1; let b = 2; const f = (x) => x;")).overallScore :=
  ⟨by decide, by decide,
    modern_overallScore_ge_legacy ("security") ("recommend")
      ("const a = 1; let b = 2; const f = (x) => x;") ("var x = 1;") (by decide) (by decide)⟩

/-- C4: the classifier returns modern exactly when the modern-indicator match
count strictly exceeds the legacy-indicator match count and is at least 3;
the scorer baseline is 75 for modern and 50 for legacy classifications; and
any code containing at least 3 of the five named modern substrings and no
legacy marker is classified modern with baseline 75. -/
theorem detectModernCode_spec :
    (∀ code : String,
      detectModernCode code = true ↔
        legacyMatchCount code < modernMatchCount code ∧ 3 ≤ modernMatchCount code)
    ∧ (∀ code : String, detectModernCode code = true → baselineScore code = 75)
    ∧ (∀ code : String, detectModernCode code = false → baselineScore code = 50)
    ∧ (∀ code : String,
        3 ≤ ((["const ", "let ", "=>", "async ", "import "].filter
          (fun s => strIncludes code s)).length) →
        (∀ l ∈ legacyIndicators, strIncludes code l = false) →
        detectModernCode code = true ∧ baselineScore code = 75) := by
  have hiff : ∀ code : String,
      detectModernCode code = true ↔
        legacyMatchCount code < modernMatchCount code ∧ 3 ≤ modernMatchCount code := by
    intro code
    unfold detectModernCode
    by_cases h : code = ("")
    · subst h
      decide
    · rw [if_neg h]
      simp
  refine ⟨hiff, ?_, ?_, ?_⟩
  · intro code h
    unfold baselineScore
    rw [h]
    rfl
  · intro code h
    unfold baselineScore
    rw [h]
    rfl
  · intro code h3 hleg
    have hsub : List.Sublist (["const ", "let ", "=>", "async ", "import "] : List String)
        modernIndicators := by
      unfold modernIndicators
      decide
    have hmod : 3 ≤ modernMatchCount code := by
      have hlen := List.Sublist.length_le
        (List.Sublist.filter (fun s => strIncludes code s) hsub)
      exact le_trans h3 hlen
    have hlegzero : legacyMatchCount code = 0 := by
      unfold legacyMatchCount
      have : legacyIndicators.filter (fun i => strIncludes code i) = [] := by
        rw [List.filter_eq_nil_iff]
        intro a ha
        simp [hleg a ha]
      rw [this]
      rfl
    have hmodern : detectModernCode code = true := by
      rw [hiff code]
      omega
    exact ⟨hmodern, by unfold baselineScore; rw [hmodern]; rfl⟩

/-- C4 witness: a concrete input containing three of the five modern
substrings and no legacy markers is classified modern with baseline 75. -/
theorem detectModernCode_spec_witness :
    3 ≤ ((["const ", "let ", "=>", "async ", "import "].filter
        (fun s => strIncludes ("const a = 1; let b = 2; import m") s)).length) ∧
      detectModernCode ("const a = 1; let b = 2; import m") = true ∧
      baselineScore ("const a = 1; let b = 2; import m") = 75 :=
  ⟨by decide,
    (detectModernCode_spec.2.2.2 ("const a = 1; let b = 2; import m") (by decide) (by decide)).1,
    (detectModernCode_spec.2.2.2 ("const a = 1; let b = 2; import m") (by decide) (by decide)).2⟩

/-- C7: `modernizationLevel` equals `overallScore` for the modernization
category and `min 100 (overallScore + 20)` for every other category. -/
theorem modernizationLevel_spec (analysisType response inputCode : String) :
    (analysisType = ("modernization") →
      (calculateDetailedMetrics analysisType response inputCode).modernizationLevel =
        (calculateDetailedMetrics analysisType response inputCode).overallScore)
    ∧ (analysisType ≠ ("modernization") →
      (calculateDetailedMetrics analysisType response inputCode).modernizationLevel =
        min 100 ((calculateDetailedMetrics analysisType response inputCode).overallScore + 20)) := by
  unfold calculateDetailedMetrics
  dsimp only
  constructor
  · intro h
    rw [if_pos h]
  · intro h
    rw [if_neg h]

/-- C7 witness: both cases at concrete categories. -/
theorem modernizationLevel_spec_witness :
    (calculateDetailedMetrics ("modernization") ("ok") ("")).modernizationLevel =
      (calculateDetailedMetrics ("modernization") ("ok") ("")).overallScore ∧
    (calculateDetailedMetrics ("security") ("ok") ("")).modernizationLevel =
      min 100 ((calculateDetailedMetrics ("security") ("ok") ("")).overallScore + 20) :=
  ⟨(modernizationLevel_spec ("modernization") ("ok") ("")).1 rfl,
    (modernizationLevel_spec ("security") ("ok") ("")).2 (by decide)⟩

/-- Property names every plain JavaScript object literal inherits from
`Object.prototype`; reading one of them yields a function (or, for
`__proto__`, an object), which is truthy and is not a string. -/
def jsObjectProtoKeys : List String :=
  ["constructor", "hasOwnProperty", "isPrototypeOf", "propertyIsEnumerable",
   "toLocaleString", "toString", "valueOf",
   "__defineGetter__", "__defineSetter__", "__lookupGetter__", "__lookupSetter__", "__proto__"]

/-- The scorer as actually callable from JavaScript: `response` may be
`undefined` (a missing argument), in which case line 61 throws a TypeError
before anything else runs; and a category name inherited from
`Object.prototype` makes the line-105 lookup yield a function, so
`keywords.negative.filter` on line 108 throws.  Every other call returns the
record computed by `calculateDetailedMetrics`. -/
def calculateDetailedMetricsJS (analysisType : String) (response : Option String)
    (inputCode : String) : Except String Metrics :=
  match response with
  | none => Except.error ("TypeError: cannot read toLowerCase of undefined")
  | some r =>
    if jsObjectProtoKeys.contains analysisType then
      Except.error ("TypeError: cannot read filter of undefined")
    else
      Except.ok (calculateDetailedMetrics analysisType r inputCode)

/-- C6 counterexample: the scorer does raise errors — a missing (undefined)
response text raises a TypeError at `response.toLowerCase()`, and a category
name inherited from `Object.prototype` (for example `constructor`) raises a
TypeError at the keyword lookup, instead of yielding a valid MetricsRecord. -/
theorem scorer_raises_on_missing_response :
    calculateDetailedMetricsJS ("security") none ("") =
        Except.error ("TypeError: cannot read toLowerCase of undefined") ∧
      calculateDetailedMetricsJS ("constructor") (some ("")) ("") =
        Except.error ("TypeError: cannot read filter of undefined") :=
  ⟨rfl, rfl⟩

/-- The keyword table lookup can only produce one of the nine category tables
or the modernization fallback. -/
theorem keywordsFor_mem_tables (analysisType : String) :
    keywordsFor analysisType ∈
      [modernizationKeywords, securityKeywords, performanceKeywords, architectureKeywords,
       complexityKeywords, documentationKeywords, cicdKeywords, transformationKeywords,
       reportingKeywords] := by
  unfold keywordsFor
  cases hf : analysisKeywords.find? (fun p => p.1 == analysisType) with
  | none =>
    exact List.mem_cons_self _ _
  | some p =>
    have hmem : p ∈ analysisKeywords := List.mem_of_find?_eq_some hf
    unfold analysisKeywords at hmem
    simp only [List.mem_cons, List.not_mem_nil, or_false] at hmem
    rcases hmem with h | h | h | h | h | h | h | h | h <;> subst h <;> simp

/-- An empty response matches no negative keyword, whatever the category. -/
theorem negCount_empty_response (analysisType : String) : negCount analysisType ("") = 0 := by
  have h := keywordsFor_mem_tables analysisType
  unfold negCount
  simp only [List.mem_cons, List.not_mem_nil, or_false] at h
  rcases h with h | h | h | h | h | h | h | h | h <;> rw [h] <;> decide

/-- An empty response matches no positive keyword, whatever the category. -/
theorem posCount_empty_response (analysisType : String) : posCount analysisType ("") = 0 := by
  have h := keywordsFor_mem_tables analysisType
  unfold posCount
  simp only [List.mem_cons, List.not_mem_nil, or_false] at h
  rcases h with h | h | h | h | h | h | h | h | h <;> rw [h] <;> decide

/-- C6 amended: for every category that is not an inherited
`Object.prototype` property name and every input code, an empty response
text yields a valid MetricsRecord with zero keyword counts and all three
bonus flags false (a missing response, or such an inherited category name,
raises a TypeError instead); in particular, with responseText = "",
category = "security" and inputCode = "" the scorer returns overallScore 50,
improvementPotential 50, issuesFound 0, improvementsSuggested 0 and all
bonus flags false. -/
theorem empty_response_valid_record (analysisType inputCode : String)
    (h : jsObjectProtoKeys.contains analysisType = false) :
    calculateDetailedMetricsJS analysisType (some ("")) inputCode =
        Except.ok (calculateDetailedMetrics analysisType ("") inputCode)
      ∧ (calculateDetailedMetrics analysisType ("") inputCode).issuesFound = 0
      ∧ (calculateDetailedMetrics analysisType ("") inputCode).improvementsSuggested = 0
      ∧ (calculateDetailedMetrics analysisType ("") inputCode).hasCodeExamples = false
      ∧ (calculateDetailedMetrics analysisType ("") inputCode).hasSpecificRecommendations = false
      ∧ (calculateDetailedMetrics analysisType ("") inputCode).hasMetrics = false
      ∧ calculateDetailedMetrics ("security") ("") ("") =
          { overallScore := 50, improvementPotential := 50, codeQuality := 50,
            modernizationLevel := 70, issuesFound := 0, improvementsSuggested := 0,
            hasCodeExamples := false, hasSpecificRecommendations := false,
            hasMetrics := false, analysisType := ("security") } := by
  have h2 : analysisType ∉ jsObjectProtoKeys := by simpa using h
  refine ⟨?_, ?_, ?_, ?_, ?_, ?_, ?_⟩
  · simp [calculateDetailedMetricsJS, h2]
  · unfold calculateDetailedMetrics
    exact negCount_empty_response analysisType
  · unfold calculateDetailedMetrics
    exact posCount_empty_response analysisType
  · show hasExamplesMarker ("") = false
    decide
  · show hasRecommendMarker ("") = false
    decide
  · show hasMetricsMarker ("") = false
    decide
  · decide

/-- C6 witness: the amended statement applied at the concrete Scenario A
inputs. -/
theorem empty_response_valid_record_witness :
    jsObjectProtoKeys.contains ("security") = false ∧
      calculateDetailedMetricsJS ("security") (some ("")) ("") =
        Except.ok (calculateDetailedMetrics ("security") ("") ("")) :=
  ⟨by decide, (empty_response_valid_record ("security") ("") (by decide)).1⟩
/-- The `modernization` prompt template (`analysisPrompts.modernization`). -/
def modernizationPrompt : String :=
  ("Analyze the provided code for modernization opportunities. Focus on:\n  - Outdated syntax and patterns\n  - Modern language features that could be used\n  - Framework/library updates\n  - Best practices implementation\n  Provide specific suggestions with code examples.")

/-- The `transformation` prompt template (`analysisPrompts.transformation`). -/
def transformationPrompt : String :=
  ("Transform the provided code to improve its structure and maintainability. Focus on:\n  - Code refactoring opportunities\n  - Design pattern implementation\n  - Function decomposition\n  - Variable naming improvements\n  - Code organization\n  Provide before/after examples with explanations.")

/-- The `architecture` prompt template (`analysisPrompts.architecture`). -/
def architecturePrompt : String :=
  ("Review the architecture of the provided code. Analyze:\n  - Overall design patterns\n  - Separation of concerns\n  - Scalability considerations\n  - Maintainability issues\n  - Architectural improvements\n  Provide architectural recommendations with diagrams if applicable.")

/-- The `performance` prompt template (`analysisPrompts.performance`). -/
def performancePrompt : String :=
  ("Analyze the code for performance optimization opportunities. Focus on:\n  - Algorithm efficiency\n  - Memory usage optimization\n  - Database query optimization\n  - Caching strategies\n  - Resource management\n  Provide specific performance improvements with benchmarks.")

/-- The `security` prompt template (`analysisPrompts.security`). -/
def securityPrompt : String :=
  ("Identify security vulnerabilities in the provided code. Look for:\n  - Input validation issues\n  - Authentication/authorization flaws\n  - Data exposure risks\n  - Injection vulnerabilities\n  - Security best practices violations\n  Provide specific fixes and security recommendations.")

/-- The `documentation` prompt template (`analysisPrompts.documentation`). -/
def documentationPrompt : String :=
  ("Generate comprehensive documentation for the provided code. Include:\n  - Function/class descriptions\n  - Parameter documentation\n  - Usage examples\n  - API documentation\n  - README content\n  Provide well-structured documentation in markdown format.")

/-- The `cicd` prompt template (`analysisPrompts.cicd`). -/
def cicdPrompt : String :=
  ("Analyze the code for CI/CD pipeline improvements. Focus on:\n  - Build optimization\n  - Testing strategies\n  - Deployment automation\n  - Quality gates\n  - Monitoring and logging\n  Provide CI/CD configuration recommendations.")

/-- The `complexity` prompt template (`analysisPrompts.complexity`). -/
def complexityPrompt : String :=
  ("Analyze and reduce code complexity. Focus on:\n  - Cyclomatic complexity reduction\n  - Function length optimization\n  - Nested conditionals simplification\n  - Code readability improvements\n  - Maintainability enhancements\n  Provide refactored code with complexity metrics.")

/-- The `reporting` prompt template (`analysisPrompts.reporting`). -/
def reportingPrompt : String :=
  ("Generate a comprehensive analysis report covering:\n  - Summary of all findings\n  - Priority recommendations\n  - Implementation roadmap\n  - Risk assessment\n  - Success metrics\n  Provide a structured report with actionable insights.")

/-- The prompt table `analysisPrompts` (lines 1814-1886), as an association
list in source key order. -/
def analysisPrompts : List (String × String) :=
  [("modernization", modernizationPrompt), ("transformation", transformationPrompt),
   ("architecture", architecturePrompt), ("performance", performancePrompt),
   ("security", securityPrompt), ("documentation", documentationPrompt),
   ("cicd", cicdPrompt), ("complexity", complexityPrompt),
   ("reporting", reportingPrompt)]

/-- The nine category identifiers, in `Object.keys(analysisPrompts)` order. -/
def analysisPromptKeys : List String :=
  ["modernization", "transformation", "architecture", "performance", "security",
   "documentation", "cicd", "complexity", "reporting"]

/-- Outcome of one call to the external generative-AI client
(`model.generateContent`): the completion text, or the message of a thrown error. -/
inductive UpOutcome where
  | ok (text : String)
  | err (message : String)
deriving DecidableEq

/-- The full prompt sent upstream (line 2030, same shape as line 1933):
template, delimiter, and the submitted code in a fenced block. -/
def fullPrompt (prompt codeContent : String) : String :=
  prompt ++ ("\n\nCode to analyze:\n```\n") ++ codeContent ++ ("\n```")

/-- The invalid-key error classification (lines 1955 and 2040). -/
def isInvalidKeyMsg (msg : String) : Bool :=
  strIncludes msg ("API_KEY_INVALID") || strIncludes msg ("INVALID_API_KEY") ||
    strIncludes msg ("401")

/-- The quota-exceeded error classification (lines 1965 and 2063). -/
def isQuotaMsg (msg : String) : Bool :=
  strIncludes msg ("429") || strIncludes msg ("quota") || strIncludes msg ("QUOTA_EXCEEDED")

/-- Entry of one category in the bulk-endpoint result map: result, score
and metrics. -/
structure CatEntry where
  result : String
  score : Int
  metrics : Metrics
deriving DecidableEq

/-- The all-zero `errorMetrics` record substituted for a failed category
(lines 2041-2053, 2064-2076 and 2086-2098; identical in all three error
branches). -/
def errorMetrics (analysisType : String) : Metrics :=
  { overallScore := 0, improvementPotential := 100, codeQuality := 0,
    modernizationLevel := 0, issuesFound := 1, improvementsSuggested := 0,
    hasCodeExamples := false, hasSpecificRecommendations := false,
    hasMetrics := false, analysisType := analysisType }

/-- The explanatory text substituted on an invalid-key failure (line 2056). -/
def invalidKeyEntryText (msg : String) : String :=
  ("❌ **Invalid API Key Error**\n\nYour Google Gemini API key is invalid or expired. Please:\n1. Check your API key at [Google AI Studio](https://makersuite.google.com/app/apikey)\n2. Generate a new API key if needed\n3. Make sure the key has proper permissions\n\n**Error Details:** ")
    ++ msg

/-- The explanatory text substituted on a quota failure (line 2079). -/
def quotaEntryText (msg : String) : String :=
  ("❌ **API Quota Exceeded**\n\nYour Google Gemini API quota has been exceeded. Please try again later or upgrade your API plan.\n\n**Error Details:** ")
    ++ msg

/-- The explanatory text substituted on any other failure (line 2099). -/
def genericErrorEntryText (msg : String) : String :=
  ("❌ **Analysis Error**\n\nAn error occurred during analysis: ") ++ msg

/-- Entry of a successful category (line 2035): the completion text, its
computed score, and the full metrics record. -/
def okEntry (analysisType text codeContent : String) : CatEntry :=
  { result := text,
    score := (calculateDetailedMetrics analysisType text codeContent).overallScore,
    metrics := calculateDetailedMetrics analysisType text codeContent }

/-- Settled promise of one category in `/api/analyze-all` (lines 2028-2100):
call upstream with the full prompt of the category; on success score the response;
on failure classify the error message and substitute a score-0 entry.  The
upstream client is a parameter `up` from full prompt to outcome. -/
def runCategory (up : String → UpOutcome) (codeContent analysisType prompt : String) : CatEntry :=
  match up (fullPrompt prompt codeContent) with
  | UpOutcome.ok text => okEntry analysisType text codeContent
  | UpOutcome.err msg =>
    if isInvalidKeyMsg msg then
      { result := invalidKeyEntryText msg, score := 0, metrics := errorMetrics analysisType }
    else if isQuotaMsg msg then
      { result := quotaEntryText msg, score := 0, metrics := errorMetrics analysisType }
    else
      { result := genericErrorEntryText msg, score := 0, metrics := errorMetrics analysisType }

/-- Result map of the bulk endpoint (lines 2028-2107): one entry per category
of `analysisPrompts`, in key order (`Promise.all` preserves the input order,
and the `forEach` on line 2105 keys the map by category). -/
def analyzeAllResults (up : String → UpOutcome) (codeContent : String) :
    List (String × CatEntry) :=
  analysisPrompts.map (fun p => (p.1, runCategory up codeContent p.1 p.2))

/-- C8: if the upstream call of exactly one category fails, with a quota-style
error message (and the message is not also invalid-key-style), while every
other call succeeds, then the bulk result map still has exactly 9
entries, one per category in order; the entry of the failed category is the
score-0 quota entry with its explanatory string; and that of every other category is the
entry is the really computed entry for its upstream completion. -/
theorem analyzeAll_isolates_failures (up : String → UpOutcome) (codeContent failTy msg : String)
    (hfail : ∀ p ∈ analysisPrompts, p.1 = failTy →
      up (fullPrompt p.2 codeContent) = UpOutcome.err msg)
    (hkey : isInvalidKeyMsg msg = false)
    (hquota : isQuotaMsg msg = true)
    (hok : ∀ p ∈ analysisPrompts, p.1 ≠ failTy →
      ∃ t, up (fullPrompt p.2 codeContent) = UpOutcome.ok t) :
    (analyzeAllResults up codeContent).map Prod.fst = analysisPromptKeys
    ∧ (analyzeAllResults up codeContent).length = 9
    ∧ (∀ e ∈ analyzeAllResults up codeContent, e.1 = failTy →
        e.2 = { result := quotaEntryText msg, score := 0, metrics := errorMetrics failTy })
    ∧ (∀ p ∈ analysisPrompts, p.1 ≠ failTy →
        ∃ t, up (fullPrompt p.2 codeContent) = UpOutcome.ok t ∧
          (p.1, okEntry p.1 t codeContent) ∈ analyzeAllResults up codeContent) := by
  refine ⟨rfl, rfl, ?_, ?_⟩
  · intro e he hety
    obtain ⟨p, hp, rfl⟩ := List.mem_map.mp he
    dsimp only at hety ⊢
    have hup := hfail p hp hety
    unfold runCategory
    rw [hup, hety]
    simp [hkey, hquota]
  · intro p hp hne
    obtain ⟨t, ht⟩ := hok p hp hne
    refine ⟨t, ht, List.mem_map.mpr ⟨p, hp, ?_⟩⟩
    dsimp only
    unfold runCategory
    rw [ht]

/-- Concrete upstream client for the C8 witness: the call of the security
category fails with a quota message, every other call succeeds. -/
def quotaOracle : String → UpOutcome :=
  fun s => if s = fullPrompt securityPrompt ("") then UpOutcome.err ("429") else UpOutcome.ok ("ok")

set_option maxRecDepth 40000 in
/-- C8 witness: the theorem applied to `quotaOracle`, whose security call
fails with a quota error and whose other eight calls succeed. -/
theorem analyzeAll_isolates_failures_witness :
    (analyzeAllResults quotaOracle ("")).map Prod.fst = analysisPromptKeys
    ∧ (analyzeAllResults quotaOracle ("")).length = 9 := by
  have hInj : ∀ p ∈ analysisPrompts, p.1 ≠ ("security") →
      fullPrompt p.2 ("") ≠ fullPrompt securityPrompt ("") := by decide
  have h := analyzeAll_isolates_failures quotaOracle ("") ("security") ("429")
    (by decide) (by decide) (by decide)
    (fun p hp hne => ⟨("ok"), by unfold quotaOracle; rw [if_neg (hInj p hp hne)]⟩)
  exact ⟨h.1, h.2.1⟩

/-- Value read by a JavaScript property access `table[key]` on a string-keyed
object literal: the stored string for an own key; an inherited (truthy,
non-string) member of `Object.prototype` for one of `jsObjectProtoKeys`; and
`undefined` otherwise. -/
inductive JsStrVal where
  | str (s : String)
  | protoFn
  | undef
deriving DecidableEq

/-- JavaScript lookup `table[key]` for a string-valued object literal modeled
as an association list. -/
def lookupJs (table : List (String × String)) (key : String) : JsStrVal :=
  match table.find? (fun p => p.1 == key) with
  | some p => JsStrVal.str p.2
  | none => if jsObjectProtoKeys.contains key then JsStrVal.protoFn else JsStrVal.undef

/-- The own keys of the enhanced mock-response table (lines 221-1461), in
source order. -/
def mockResponseKeys : List String :=
  ["modernization", "transformation", "architecture", "performance", "security",
   "documentation", "cicd", "complexity", "reporting"]

/-- `getEnhancedMockResponse` (lines 169-1464).  The nine template bodies
(lines 221-1461) only interpolate code-derived statistics into fixed prose;
no control flow of the server depends on their content, so the model takes
the table values as a parameter `mockText` (category and input code to
text), every value being nonempty (each template begins with a fixed
heading), hence truthy.  The lookup with fallback
`mockResponses[analysisType] || mockResponses.modernization` (line 1463) is
modeled concretely, including the inherited-`Object.prototype` case in which
the JavaScript lookup yields a truthy non-string. -/
def getEnhancedMockResponse (mockText : String → String → String)
    (analysisType inputCode : String) : JsStrVal :=
  if mockResponseKeys.contains analysisType then JsStrVal.str (mockText analysisType inputCode)
  else if jsObjectProtoKeys.contains analysisType then JsStrVal.protoFn
  else JsStrVal.str (mockText ("modernization") inputCode)

/-- A request to `POST /api/analyze` (line 1890): the inline `code` field and
the uploaded file content are optional; `analysisType` and `apiKey` are
strings (an absent `apiKey` is falsy like the empty string, and is modeled
by it). -/
structure AnalyzeRequest where
  code : Option String
  file : Option String
  analysisType : String
  apiKey : String

/-- The responses `/api/analyze` can produce: the 400 bodies (lines 1897,
1920, 1925), the demo 200 with `demoMode: true` (lines 1905-1910), the live
200 (lines 1942-1949), the invalid-key 400 (lines 1956-1960), the quota 429
(lines 1966-1970), and the generic 500 (lines 1972-1975). -/
inductive AnalyzeResponse where
  | badRequest (error : String)
  | demoOk (analysis : String) (score : Int) (metrics : Metrics)
  | liveOk (result : String) (score : Int) (metrics : Metrics)
  | invalidKeyResp
  | quotaResp
  | serverError (details : String)
deriving DecidableEq

/-- Stand-in for the engine-specific source text a template literal produces
when it stringifies an inherited `Object.prototype` function (reached only
when `analysisType` is such a member name on the live path, line 1933); no
claim depends on its exact value. -/
def jsProtoFnSource : String :=
  ("function () \x7b [native code] \x7d")

/-- The payload selection of the live path: `let codeContent = code` (line
1893) overridden by the content of the uploaded file when a file is present
(lines 1914-1917). -/
def selectedCodeContent (req : AnalyzeRequest) : Option String :=
  match req.file with
  | some f => some f
  | none => req.code

/-- The live call of `/api/analyze` (lines 1929-1976): send the full prompt
upstream; on success score the completion, on failure classify the error
message exactly as the catch block of the handler does. -/
def liveCall (up : String → UpOutcome) (analysisType prompt codeContent : String) :
    AnalyzeResponse × Option String :=
  match up (fullPrompt prompt codeContent) with
  | UpOutcome.ok text =>
    (AnalyzeResponse.liveOk text
      (calculateDetailedMetrics analysisType text codeContent).overallScore
      (calculateDetailedMetrics analysisType text codeContent), some codeContent)
  | UpOutcome.err msg =>
    if isInvalidKeyMsg msg then (AnalyzeResponse.invalidKeyResp, none)
    else if isQuotaMsg msg then (AnalyzeResponse.quotaResp, none)
    else (AnalyzeResponse.serverError msg, none)

/-- The `/api/analyze` handler (lines 1889-1978), instrumented: the second
component records the `inputCode` argument passed to the scorer (`none` when
the scorer is never invoked).  In source order: the falsy-`apiKey` 400 (line
1896); the demo branch (lines 1901-1911), which runs before the file is read
and therefore scores `req.body.code` (empty when absent) — when the mock
lookup yields an inherited non-string, `response.toLowerCase()` inside the
scorer throws and the outer catch turns it into the generic 500; then the
file override, the falsy-`codeContent` 400 (line 1919), the prompt-table
check (lines 1923-1926, falsy only for `undefined`), and the live call. -/
def analyzeStep (up : String → UpOutcome) (mockText : String → String → String)
    (req : AnalyzeRequest) : AnalyzeResponse × Option String :=
  if req.apiKey = ("") then (AnalyzeResponse.badRequest ("API key is required"), none)
  else if req.apiKey = ("demo-key-for-hackathon") then
    match getEnhancedMockResponse mockText req.analysisType (req.code.getD ("")) with
    | JsStrVal.str mockResponse =>
      (AnalyzeResponse.demoOk mockResponse
        (calculateDetailedMetrics req.analysisType mockResponse (req.code.getD (""))).overallScore
        (calculateDetailedMetrics req.analysisType mockResponse (req.code.getD (""))),
       some (req.code.getD ("")))
    | _ =>
      (AnalyzeResponse.serverError ("TypeError: response.toLowerCase is not a function"),
       some (req.code.getD ("")))
  else
    match selectedCodeContent req with
    | none => (AnalyzeResponse.badRequest ("No code provided"), none)
    | some c =>
      if c = ("") then (AnalyzeResponse.badRequest ("No code provided"), none)
      else
        match lookupJs analysisPrompts req.analysisType with
        | JsStrVal.undef => (AnalyzeResponse.badRequest ("Invalid analysis type"), none)
        | JsStrVal.str prompt => liveCall up req.analysisType prompt c
        | JsStrVal.protoFn => liveCall up req.analysisType jsProtoFnSource c

/-- Trivial upstream client used by concrete handler evaluations. -/
def okOracle : String → UpOutcome :=
  fun _ => UpOutcome.ok ("ok")

/-- Trivial mock-template table used by concrete handler evaluations. -/
def mockTextStub : String → String → String :=
  fun _ _ => ("mock")

/-- C9 counterexample: a demo-mode request carrying both an uploaded file and
inline text has the inline text, not the file content, as the payload passed
to the scorer — the file does not take precedence on the demo path. -/
theorem demo_file_not_payload :
    (analyzeStep okOracle mockTextStub
        { code := some ("const a = 1;"), file := some ("var x = 1;"),
          analysisType := ("security"), apiKey := ("demo-key-for-hackathon") }).2
      = some ("const a = 1;")
    ∧ (analyzeStep okOracle mockTextStub
        { code := some ("const a = 1;"), file := some ("var x = 1;"),
          analysisType := ("security"), apiKey := ("demo-key-for-hackathon") }).2
      ≠ some ("var x = 1;") := by
  constructor
  · rfl
  · decide

/-- C9 amended: on a non-demo request the uploaded file takes precedence —
the request behaves exactly like one whose inline text is the file content;
on a demo-key request the uploaded file is ignored (removing it changes
nothing) and the payload passed to the scorer is the inline text field,
empty when absent. -/
theorem payload_selection (up : String → UpOutcome) (mockText : String → String → String)
    (req : AnalyzeRequest) :
    (req.apiKey ≠ ("") → req.apiKey ≠ ("demo-key-for-hackathon") →
      ∀ f, req.file = some f →
        analyzeStep up mockText req =
          analyzeStep up mockText
            { code := some f, file := none, analysisType := req.analysisType,
              apiKey := req.apiKey })
    ∧ (req.apiKey = ("demo-key-for-hackathon") →
        analyzeStep up mockText req =
          analyzeStep up mockText
            { code := req.code, file := none, analysisType := req.analysisType,
              apiKey := req.apiKey }
        ∧ (analyzeStep up mockText req).2 = some (req.code.getD (""))) := by
  obtain ⟨c, fl, ty, k⟩ := req
  constructor
  · intro h1 h2 f hf
    dsimp only at hf h1 h2 ⊢
    subst hf
    unfold analyzeStep selectedCodeContent
    dsimp only
    simp only [if_neg h1, if_neg h2]
  · intro h2
    dsimp only at h2 ⊢
    subst h2
    have hne1 : ¬(("demo-key-for-hackathon" : String) = ("")) := by decide
    constructor
    · rfl
    · unfold analyzeStep
      dsimp only
      simp only [if_neg hne1, if_pos rfl]
      cases hv : getEnhancedMockResponse mockText ty (Option.getD c ("")) <;> simp [hv]

/-- C9 witness: both parts of the amended statement at concrete requests —
on a non-demo request the file content replaces the inline text, and on a
demo request the file is ignored and the inline text is the scored payload. -/
theorem payload_selection_witness :
    analyzeStep okOracle mockTextStub
        { code := some ("x"), file := some ("y"), analysisType := ("security"),
          apiKey := ("k") } =
      analyzeStep okOracle mockTextStub
        { code := some ("y"), file := none, analysisType := ("security"), apiKey := ("k") }
    ∧ analyzeStep okOracle mockTextStub
        { code := some ("x"), file := some ("y"), analysisType := ("security"),
          apiKey := ("demo-key-for-hackathon") } =
      analyzeStep okOracle mockTextStub
        { code := some ("x"), file := none, analysisType := ("security"),
          apiKey := ("demo-key-for-hackathon") }
    ∧ (analyzeStep okOracle mockTextStub
        { code := some ("x"), file := some ("y"), analysisType := ("security"),
          apiKey := ("demo-key-for-hackathon") }).2 = some ("x") := by
  refine ⟨(payload_selection okOracle mockTextStub _).1 (by decide) (by decide) ("y") rfl,
    ((payload_selection okOracle mockTextStub _).2 rfl).1,
    ((payload_selection okOracle mockTextStub _).2 rfl).2⟩

/-- C10 counterexample: a demo-key request whose `analysisType` is the
inherited property name `constructor` is answered with the generic 500, not
with a 200 `demoMode` response: the mock lookup returns
`Object.prototype.constructor`, and `response.toLowerCase()` in the scorer
throws. -/
theorem demo_constructor_category_500 :
    (analyzeStep okOracle mockTextStub
        { code := none, file := none, analysisType := ("constructor"),
          apiKey := ("demo-key-for-hackathon") }).1 =
      AnalyzeResponse.serverError ("TypeError: response.toLowerCase is not a function") := rfl

/-- C10 amended: on the demo path, for every `analysisType` that is not an
inherited `Object.prototype` property name and every code payload (also an
absent one), the handler returns the 200 `demoMode` response built from the
looked-up or fallback mock text; for an inherited property name it returns
the generic 500 from the TypeError; and an unrecognized category is served
the modernization fallback text.  In particular no demo request reaches the
`No code provided` or `Invalid analysis type` 400 rejections. -/
theorem demo_mode_always_responds (up : String → UpOutcome)
    (mockText : String → String → String) (ty : String) (code fil : Option String) :
    (jsObjectProtoKeys.contains ty = false →
      ∃ t, getEnhancedMockResponse mockText ty (code.getD ("")) = JsStrVal.str t ∧
        analyzeStep up mockText
            { code := code, file := fil, analysisType := ty,
              apiKey := ("demo-key-for-hackathon") } =
          (AnalyzeResponse.demoOk t
            (calculateDetailedMetrics ty t (code.getD (""))).overallScore
            (calculateDetailedMetrics ty t (code.getD (""))), some (code.getD (""))))
    ∧ (jsObjectProtoKeys.contains ty = true →
        (analyzeStep up mockText
            { code := code, file := fil, analysisType := ty,
              apiKey := ("demo-key-for-hackathon") }).1 =
          AnalyzeResponse.serverError ("TypeError: response.toLowerCase is not a function"))
    ∧ (mockResponseKeys.contains ty = false → jsObjectProtoKeys.contains ty = false →
        getEnhancedMockResponse mockText ty (code.getD ("")) =
          getEnhancedMockResponse mockText ("modernization") (code.getD (""))) := by
  have hne1 : ¬(("demo-key-for-hackathon" : String) = ("")) := by decide
  refine ⟨?_, ?_, ?_⟩
  · intro hp
    have hp2 : ty ∉ jsObjectProtoKeys := by simpa using hp
    cases hq : mockResponseKeys.contains ty with
    | true =>
      have hq2 : ty ∈ mockResponseKeys := by simpa using hq
      refine ⟨mockText ty (code.getD ("")), ?_, ?_⟩
      · simp [getEnhancedMockResponse, hq2]
      · unfold analyzeStep
        dsimp only
        simp only [if_neg hne1, if_pos rfl]
        simp [getEnhancedMockResponse, hq2]
    | false =>
      have hq2 : ty ∉ mockResponseKeys := by simpa using hq
      refine ⟨mockText ("modernization") (code.getD ("")), ?_, ?_⟩
      · simp [getEnhancedMockResponse, hq2, hp2]
      · unfold analyzeStep
        dsimp only
        simp only [if_neg hne1, if_pos rfl]
        simp [getEnhancedMockResponse, hq2, hp2]
  · intro hp
    have hmem : ty ∈ jsObjectProtoKeys := by simpa using hp
    unfold jsObjectProtoKeys at hmem
    fin_cases hmem <;> rfl
  · intro hq hp
    have hq2 : ty ∉ mockResponseKeys := by simpa using hq
    have hp2 : ty ∉ jsObjectProtoKeys := by simpa using hp
    have hmod : ("modernization" : String) ∈ mockResponseKeys := by decide
    simp [getEnhancedMockResponse, hq2, hp2, hmod]

/-- C10 witness: the amended statement at the unrecognized category `bogus`
with no code at all — a 200 `demoMode` response carrying the modernization
fallback text. -/
theorem demo_mode_always_responds_witness :
    (∃ t, getEnhancedMockResponse mockTextStub ("bogus") ((none : Option String).getD ("")) =
        JsStrVal.str t ∧
      analyzeStep okOracle mockTextStub
          { code := none, file := none, analysisType := ("bogus"),
            apiKey := ("demo-key-for-hackathon") } =
        (AnalyzeResponse.demoOk t
          (calculateDetailedMetrics ("bogus") t ((none : Option String).getD (""))).overallScore
          (calculateDetailedMetrics ("bogus") t ((none : Option String).getD (""))),
         some ((none : Option String).getD (""))))
    ∧ getEnhancedMockResponse mockTextStub ("bogus") ((none : Option String).getD ("")) =
        getEnhancedMockResponse mockTextStub ("modernization") ((none : Option String).getD ("")) := by
  have h := demo_mode_always_responds okOracle mockTextStub ("bogus") none none
  exact ⟨h.1 (by decide), h.2.2 (by decide) (by decide)⟩
